import Mathlib

/-!
Verification of the map-trip-planner repository's query-resolution subsystem.

Shallow embedding of:
  - the suggestion cache and fetcher of `src/components/LocationAutocomplete.tsx`
    (`searchLocations`, the cache kept in `cacheRef`, `debouncedSearch`);
  - the geocoding, routing and distance functions of
    `src/components/TripMapSelector.tsx` (`geocodeAddress`,
    `calculateRouteDistance`, `calculateStraightLineDistance`,
    `calculateTotalDistance`, the geocoding effects);
  - `handleAddCurrent` / `handleLocationSelect` of
    `src/components/DestinationSearchInput.tsx`.

Network interactions are modelled by explicit outcome values (the parsed
payload the provider produced, or the fact that the call threw); numbers are
real numbers; the JS `Map` of the cache is an insertion-ordered association
list.
-/

namespace TripPlanner

open Real

/-- A coordinate as the code stores it: a `[latitude, longitude]` pair. -/
abbrev Coordinate : Type := ℝ × ℝ

/-- The `LocationSuggestion` interface of `LocationAutocomplete.tsx`.
The source fields `class` and `type` are keywords or near-keywords in Lean
and are embedded as `cls` and `typ`. -/
structure LocationSuggestion where
  place_id : Int
  display_name : String
  lat : String
  lon : String
  cls : String
  typ : String
deriving DecidableEq, Repr

/-- The `Destination` interface of `TripPlanningForm.tsx` (the unnamed source
file): `{id, lat, lng, name}`. -/
structure Destination where
  id : String
  lat : ℝ
  lng : ℝ
  name : String

/-- The suggestion cache `cacheRef.current : Map<string, LocationSuggestion[]>`,
embedded as an insertion-ordered association list (JS `Map` iterates keys in
insertion order; `set` of an existing key updates in place, `set` of a new key
appends). -/
abbrev Cache : Type := List (String × List LocationSuggestion)

/-- JS `String.prototype.toLowerCase`: lower-case every character. -/
def jsToLower (s : String) : String :=
  String.mk (s.data.map Char.toLower)

/-- JS `String.prototype.trim`: remove leading and trailing whitespace. -/
def jsTrim (s : String) : String :=
  String.mk
    (((s.data.dropWhile Char.isWhitespace).reverse.dropWhile
        Char.isWhitespace).reverse)

/-- JS `displayName.split(',')[0]`: the segment before the first comma (the
whole string when it has no comma). -/
def jsSplitFirst (s : String) : String :=
  String.mk (s.data.takeWhile (fun c => c != ','))

/-- The normalised cache key: `query.toLowerCase().trim()`
(LocationAutocomplete.tsx line 49). -/
def normalizeQuery (query : String) : String :=
  jsTrim (jsToLower query)

/-- `cacheRef.current.get(cacheKey)`: the value stored under the first entry
whose key equals `k`, if any. -/
def cacheGet (c : Cache) (k : String) : Option (List LocationSuggestion) :=
  match c.find? (fun p => p.1 == k) with
  | some p => some p.2
  | none => none

/-- JS `Map.set(k, v)`: if `k` is already a key, its value is updated in
place (insertion order unchanged); otherwise the entry `(k, v)` is appended. -/
def mapSet (c : Cache) (k : String) (v : List LocationSuggestion) : Cache :=
  if (cacheGet c k).isSome then
    c.map (fun p => if p.1 == k then (k, v) else p)
  else
    c ++ [(k, v)]

/-- The put operation of the suggestion cache, LocationAutocomplete.tsx lines
85-92: `cacheRef.current.set(cacheKey, results)` followed by
`if (cacheRef.current.size > 50) delete(first key)`.  Deleting the first
insertion-order key of a JS `Map` removes its first entry, i.e. `drop 1`. -/
def cachePut (c : Cache) (k : String) (v : List LocationSuggestion) : Cache :=
  let c1 := mapSet c k v
  if 50 < c1.length then c1.drop 1 else c1

/-- The keys of the cache in insertion order (`Map.keys()`). -/
def cacheKeys (c : Cache) : List String :=
  c.map (fun p => p.1)

/-- A sequence of put operations applied to the initially empty cache. -/
def runPuts (ops : List (String × List LocationSuggestion)) : Cache :=
  ops.foldl (fun c p => cachePut c p.1 p.2) []

/-- A concrete cache of 50 distinct keys, used as a witness input. -/
def fiftyEntryCache : Cache :=
  (List.range 50).map (fun i => (Nat.repr i, []))

/-- The synchronous decision `searchLocations` makes for a query, lines 41-66:
publish an empty list if the raw query is shorter than 2 characters, publish
the cached list on a cache hit under the normalised key, otherwise issue a
network request for the raw query. -/
inductive SearchAction where
  | publishEmpty
  | publishCached (results : List LocationSuggestion)
  | fetch (query : String)
deriving DecidableEq, Repr

/-- Lines 41-66 of `searchLocations`: the guard `query.length < 2` is on the
RAW query; the cache is consulted under `normalizeQuery query`. -/
def searchDecision (c : Cache) (query : String) : SearchAction :=
  if query.length < 2 then
    SearchAction.publishEmpty
  else
    match cacheGet c (normalizeQuery query) with
    | some cached => SearchAction.publishCached cached
    | none => SearchAction.fetch query

/-- 1 if the action issues a network request, 0 otherwise. -/
def networkCalls (a : SearchAction) : Nat :=
  match a with
  | SearchAction.fetch _ => 1
  | _ => 0

/-- The state the fetcher owns: the cache, the published `suggestions` and
`error` states, the loading flag, the identity of the abort controller of the
currently outstanding request (`abortControllerRef`), and a counter supplying
fresh controller identities. -/
structure FetcherState where
  cache : Cache
  suggestions : List LocationSuggestion
  error : Option String
  isLoading : Bool
  inflight : Option Nat
  nextId : Nat

/-- Lines 57-76 of `searchLocations`: abort the previous controller (any
outstanding request is thereby superseded and will complete as an
`AbortError`), create a fresh controller, set `isLoading`, clear the error and
issue the fetch.  Returns the new state and the id of the issued request. -/
def issueFetch (s : FetcherState) : FetcherState × Nat :=
  ({ s with inflight := some s.nextId
          , nextId := s.nextId + 1
          , isLoading := true
          , error := none }, s.nextId)

/-- The synchronous part of `searchLocations` on state `s` for `query`:
applies the decision, returning the new state and the id of the request
issued, if any. -/
def applyDecision (s : FetcherState) (query : String) : FetcherState × Option Nat :=
  match searchDecision s.cache query with
  | SearchAction.publishEmpty =>
      ({ s with suggestions := [], error := none }, none)
  | SearchAction.publishCached cached =>
      ({ s with suggestions := cached, error := none }, none)
  | SearchAction.fetch _ =>
      let r := issueFetch s
      (r.1, some r.2)

/-- The fetcher's initial state: empty cache, nothing published, no error,
not loading, no outstanding request. -/
def initialFetcherState : FetcherState :=
  { cache := [], suggestions := [], error := none, isLoading := false
  , inflight := none, nextId := 0 }

/-- A concrete suggestion, used in witness and counterexample inputs. -/
def parisSuggestion : LocationSuggestion :=
  { place_id := 1, display_name := "Paris, Ile-de-France, France"
  , lat := "48.85", lon := "2.35", cls := "place", typ := "city" }

/-- How a fetch completes: with a parsed result list, or with a genuine
transport failure (network error, non-ok status thrown at line 79, or a
malformed body). -/
inductive FetchResult where
  | success (results : List LocationSuggestion)
  | failure

/-- Lines 82-103: completion of the request with controller id `id` and raw
query `q`.  If the controller was aborted (it is no longer the current one),
the promise rejects with an `AbortError`, which the catch block silently
ignores, so neither `suggestions` nor the cache nor `error` change; only the
`finally` clause clears the loading flag.  Otherwise a success stores the
results under the normalised key and publishes them, and a genuine failure
publishes the empty list with a user-facing error. -/
def completeFetch (s : FetcherState) (id : Nat) (q : String) (r : FetchResult) :
    FetcherState :=
  if s.inflight = some id then
    match r with
    | FetchResult.success results =>
        { s with cache := cachePut s.cache (normalizeQuery q) results
               , suggestions := results
               , error := none
               , isLoading := false }
    | FetchResult.failure =>
        { s with suggestions := []
               , error := some "Failed to search locations. Please try again."
               , isLoading := false }
  else
    { s with isLoading := false }

/-- The debounce window of `debouncedSearch`, line 117: 150 ms. -/
def debounceMs : Nat := 150

/-- Which debounce timers fire, given the timed input events
`(time, query)` of successive `debouncedSearch` calls (lines 106-119): each
call clears the previously scheduled timeout, so the timer armed at time `t`
fires (at `t + 150`) exactly when no further input arrives before `t + 150`. -/
def firedEvents : List (Nat × String) → List (Nat × String)
  | [] => []
  | [e] => [e]
  | e :: e2 :: rest =>
      (if e.1 + debounceMs ≤ e2.1 then [e] else []) ++ firedEvents (e2 :: rest)

/-- Every input of the trace arrives within the debounce window of its
predecessor. -/
def rapid : List (Nat × String) → Bool
  | [] => true
  | [_] => true
  | e :: e2 :: rest => (decide (e2.1 < e.1 + debounceMs)) && rapid (e2 :: rest)

/-- The action the debounce callback takes when the timer for `query` fires
(lines 110-117): a non-empty query runs `searchLocations`, an empty query
publishes the empty list. -/
def debounceCallback (c : Cache) (query : String) : SearchAction :=
  if query = "" then SearchAction.publishEmpty else searchDecision c query

/-- The raw queries for which a network request is issued when the trace's
surviving timers fire against cache `c`. -/
def fetchedQueries (c : Cache) (evs : List (Nat × String)) : List String :=
  (firedEvents evs).filterMap (fun e =>
    match debounceCallback c e.2 with
    | SearchAction.fetch q => some q
    | _ => none)

/-- One entry of the parsed geocoding payload, with `parseFloat(lat)` and
`parseFloat(lon)` already applied. -/
structure GeoResult where
  lat : ℝ
  lon : ℝ

/-- How a `geocodeAddress` provider interaction can end: the fetch or the
body parse throws; the body parses but is not an array with a positive
`length` (e.g. `null` or an error object); or it parses to a result array. -/
inductive GeoOutcome where
  | throws
  | nonArray
  | results (data : List GeoResult)

/-- `geocodeAddress` of TripMapSelector.tsx lines 144-157: on a thrown error
the catch block swallows it and `null` is returned; a payload failing the
`data && data.length > 0` test yields `null`; otherwise the first match's
coordinates are returned. -/
def geocodeAddress : GeoOutcome → Option Coordinate
  | GeoOutcome.throws => none
  | GeoOutcome.nonArray => none
  | GeoOutcome.results [] => none
  | GeoOutcome.results (r :: _) => some (r.lat, r.lon)

/-- The JS `Math.atan2` on real arguments. -/
noncomputable def atan2 (y x : ℝ) : ℝ :=
  if 0 < x then Real.arctan (y / x)
  else if x < 0 then
    if 0 ≤ y then Real.arctan (y / x) + π else Real.arctan (y / x) - π
  else
    if 0 < y then π / 2
    else if y < 0 then -(π / 2)
    else 0

/-- One iteration of the loop of `calculateStraightLineDistance`
(TripMapSelector.tsx lines 188-201): the haversine distance between two
consecutive coordinates, Earth radius 6371 km. -/
noncomputable def haversinePair (a b : Coordinate) : ℝ :=
  let lat1 := a.1
  let lon1 := a.2
  let lat2 := b.1
  let lon2 := b.2
  let dLat := (lat2 - lat1) * π / 180
  let dLon := (lon2 - lon1) * π / 180
  let A := Real.sin (dLat / 2) * Real.sin (dLat / 2) +
      Real.cos (lat1 * π / 180) * Real.cos (lat2 * π / 180) *
      Real.sin (dLon / 2) * Real.sin (dLon / 2)
  let c := 2 * atan2 (Real.sqrt A) (Real.sqrt (1 - A))
  6371 * c

/-- `calculateStraightLineDistance`, lines 184-203: 0 for fewer than two
coordinates, otherwise the haversine distances over consecutive pairs,
summed. -/
noncomputable def calculateStraightLineDistance : List Coordinate → ℝ
  | a :: b :: rest => haversinePair a b + calculateStraightLineDistance (b :: rest)
  | _ => 0

/-- One route of the parsed OSRM payload: its `distance` in metres. -/
structure Route where
  distance : ℝ

/-- How the `calculateRouteDistance` provider interaction can end: the fetch
or `response.json()` throws, or the property access on a `null` body throws
(all caught by the catch block); or a payload is parsed, whose `routes` field
is absent (`none`) or is a route array. -/
inductive RouteOutcome where
  | throws
  | payload (routes : Option (List Route))

/-- `calculateRouteDistance`, lines 160-181: fewer than 2 coordinates return
0 before any network interaction; a thrown error is caught and the
straight-line fallback is returned; a parsed payload with a non-empty
`routes` array yields its first route's distance converted to km; any other
parsed payload (no `routes` field, or an empty array — e.g. the JSON error
body of a non-2xx response) falls through to `return 0`. -/
noncomputable def calculateRouteDistance (coordinates : List Coordinate)
    (o : RouteOutcome) : ℝ :=
  if coordinates.length < 2 then 0
  else
    match o with
    | RouteOutcome.throws => calculateStraightLineDistance coordinates
    | RouteOutcome.payload routes =>
        match routes with
        | some (r :: _) => r.distance / 1000
        | _ => 0

/-- The distance-relevant state of `TripMapSelector`: the resolved start and
end coordinates, the waypoint list, and the last value published through
`onDistanceCalculated`. -/
structure TripState where
  startCoords : Option Coordinate
  endCoords : Option Coordinate
  destinations : List Destination
  publishedDistance : ℝ

/-- Lines 221-225 of `calculateTotalDistance`: push `startCoords` if present,
then every destination's `[lat, lng]` in list order, then `endCoords` if
present. -/
def assembleCoordinates (s : TripState) : List Coordinate :=
  s.startCoords.toList ++ s.destinations.map (fun d => (d.lat, d.lng)) ++
    s.endCoords.toList

/-- `calculateTotalDistance`, lines 219-234: if the assembled sequence has at
least 2 entries, compute the distance and publish it via
`onDistanceCalculated`; otherwise nothing is published and the last published
value stands.  The boolean records whether a publish occurred. -/
noncomputable def calculateTotalDistance (s : TripState) (o : RouteOutcome) :
    TripState × Bool :=
  let allCoordinates := assembleCoordinates s
  if 2 ≤ allCoordinates.length then
    ({ s with publishedDistance := calculateRouteDistance allCoordinates o }, true)
  else
    (s, false)

/-- A concrete trip state whose assembled sequence has two entries. -/
def tripTwoPointState : TripState :=
  { startCoords := some (0, 0), endCoords := some (0, 180)
  , destinations := [], publishedDistance := 0 }

/-- A concrete trip state whose assembled sequence is empty. -/
def tripEmptyState : TripState :=
  { startCoords := none, endCoords := none, destinations := []
  , publishedDistance := 5 }

/-- The geocoding effect for the starting address, lines 206-210: only a
truthy (non-empty) address triggers `geocodeAddress`, whose result (possibly
`null`) replaces `startCoords`; an empty address leaves the state untouched. -/
def onStartingAddressChange (s : TripState) (startingAddress : String)
    (geo : GeoOutcome) : TripState :=
  if startingAddress = "" then s
  else { s with startCoords := geocodeAddress geo }

/-- The geocoding effect for the ending address, lines 212-216. -/
def onEndingAddressChange (s : TripState) (endingAddress : String)
    (geo : GeoOutcome) : TripState :=
  if endingAddress = "" then s
  else { s with endCoords := geocodeAddress geo }

/-- `handleLocationSelect` of DestinationSearchInput.tsx lines 18-28: appends
a destination whose name is the first comma-segment of the display name. -/
def handleLocationSelect (destinations : List Destination) (id : String)
    (lat lng : ℝ) (displayName : String) : List Destination :=
  destinations ++ [{ id := id, lat := lat, lng := lng
                   , name := jsSplitFirst displayName }]

/-- `handleAddCurrent`, lines 30-35: with non-blank typed text, call
`handleLocationSelect(0, 0, searchValue)` — latitude 0, longitude 0, no
geocoding; blank text does nothing. -/
def handleAddCurrent (destinations : List Destination) (id : String)
    (searchValue : String) : List Destination :=
  if jsTrim searchValue = "" then destinations
  else handleLocationSelect destinations id 0 0 searchValue

/-! ## Cache lemmas -/

theorem cacheGet_nil (k : String) : cacheGet [] k = none := rfl

theorem cacheGet_cons (p : String × List LocationSuggestion) (rest : Cache)
    (k : String) :
    cacheGet (p :: rest) k = if p.1 = k then some p.2 else cacheGet rest k := by
  unfold cacheGet
  rw [List.find?]
  by_cases hp : p.1 = k
  · have hb : (p.1 == k) = true := by simp [hp]
    rw [hb]
    simp [hp]
  · have hb : (p.1 == k) = false := by simp [hp]
    rw [hb]
    simp [hp]

theorem cacheGet_eq_none_of_not_mem (c : Cache) (k : String)
    (hk : k ∉ cacheKeys c) : cacheGet c k = none := by
  induction c with
  | nil => rfl
  | cons p rest ih =>
    rw [cacheGet_cons]
    have hp : p.1 ≠ k := fun h => hk (by simp [cacheKeys, h])
    rw [if_neg hp]
    exact ih (fun h => hk (by simp [cacheKeys] at h ⊢; exact Or.inr h))

theorem cacheGet_append (c l : Cache) (k : String) (h : cacheGet c k = none) :
    cacheGet (c ++ l) k = cacheGet l k := by
  induction c with
  | nil => simp
  | cons p rest ih =>
    rw [cacheGet_cons] at h
    rw [List.cons_append, cacheGet_cons]
    by_cases hp : p.1 = k
    · rw [if_pos hp] at h; cases h
    · rw [if_neg hp] at h
      rw [if_neg hp]
      exact ih h

theorem cachePut_length_le (c : Cache) (k : String) (v : List LocationSuggestion)
    (h : c.length ≤ 50) : (cachePut c k v).length ≤ 50 := by
  simp only [cachePut, mapSet]
  split
  · split
    · simp; omega
    · simpa using h
  · split
    · simp
      omega
    · rename_i h2
      simp at h2 ⊢
      omega

theorem foldlPut_length_le (ops : List (String × List LocationSuggestion))
    (c : Cache) (h : c.length ≤ 50) :
    (ops.foldl (fun c p => cachePut c p.1 p.2) c).length ≤ 50 := by
  induction ops generalizing c with
  | nil => simpa using h
  | cons op rest ih => exact ih _ (cachePut_length_le _ _ _ h)

theorem runPuts_length_le (ops : List (String × List LocationSuggestion)) :
    (runPuts ops).length ≤ 50 :=
  foldlPut_length_le ops [] (by simp)

theorem cachePut_of_fresh (c : Cache) (k : String) (v : List LocationSuggestion)
    (hlen : c.length = 50) (hk : k ∉ cacheKeys c) :
    cachePut c k v = (c ++ [(k, v)]).drop 1 := by
  have hget : cacheGet c k = none := cacheGet_eq_none_of_not_mem c k hk
  simp only [cachePut, mapSet, hget, Option.isSome_none, Bool.false_eq_true,
    if_false]
  rw [if_pos (by simp [hlen])]

/-- Claim C2: for every sequence of puts on the suggestion cache starting from
the empty cache, the cache holds at most 50 entries after every put, and when
a fresh key is inserted into a full 50-entry cache the insertion-order key
list loses its first element and gains the new key at the end — strict FIFO —
so the first-inserted key is no longer present. -/
theorem claim_C2 (ops : List (String × List LocationSuggestion)) (c : Cache)
    (k : String) (v : List LocationSuggestion)
    (hlen : c.length = 50) (hk : k ∉ cacheKeys c)
    (hnodup : (cacheKeys c).Nodup) (k0 : String)
    (hk0 : (cacheKeys c).head? = some k0) :
    (runPuts ops).length ≤ 50 ∧
    cacheKeys (cachePut c k v) = (cacheKeys c).drop 1 ++ [k] ∧
    k0 ∉ cacheKeys (cachePut c k v) := by
  have hput : cachePut c k v = (c ++ [(k, v)]).drop 1 :=
    cachePut_of_fresh c k v hlen hk
  have hkeys : cacheKeys (cachePut c k v) = (cacheKeys c).drop 1 ++ [k] := by
    rw [hput]
    show ((c ++ [(k, v)]).drop 1).map (fun p => p.1) = _
    rw [List.map_drop, List.map_append]
    rw [List.drop_append_of_le_length (by simp [cacheKeys] at hlen ⊢; omega)]
    rfl
  refine ⟨runPuts_length_le ops, hkeys, ?_⟩
  obtain ⟨t, ht⟩ : ∃ t, cacheKeys c = k0 :: t := by
    cases hcc : cacheKeys c with
    | nil => rw [hcc] at hk0; cases hk0
    | cons a t =>
      rw [hcc] at hk0
      simp at hk0
      exact ⟨t, by rw [hk0]⟩
  rw [hkeys, ht]
  simp only [List.drop_succ_cons, List.drop_zero, List.mem_append,
    List.mem_singleton]
  rintro (h0 | h0)
  · rw [ht] at hnodup
    exact (List.nodup_cons.mp hnodup).1 h0
  · exact hk (by rw [ht, h0]; simp)

/-- Witness for claim C2 at a concrete 50-entry cache and the fresh key
"zzz". -/
theorem claim_C2_witness :
    fiftyEntryCache.length = 50 ∧ "zzz" ∉ cacheKeys fiftyEntryCache ∧
    (cacheKeys fiftyEntryCache).Nodup ∧
    (cacheKeys fiftyEntryCache).head? = some "0" ∧
    ((runPuts []).length ≤ 50 ∧
     cacheKeys (cachePut fiftyEntryCache "zzz" []) =
       (cacheKeys fiftyEntryCache).drop 1 ++ ["zzz"] ∧
     "0" ∉ cacheKeys (cachePut fiftyEntryCache "zzz" [])) :=
  ⟨by decide, by decide, by decide, by decide,
   claim_C2 [] fiftyEntryCache "zzz" [] (by decide) (by decide) (by decide)
     "0" (by decide)⟩

theorem not_mem_of_cacheGet_eq_none (c : Cache) (k : String)
    (h : cacheGet c k = none) : k ∉ cacheKeys c := by
  induction c with
  | nil => simp [cacheKeys]
  | cons p rest ih =>
    rw [cacheGet_cons] at h
    by_cases hp : p.1 = k
    · rw [if_pos hp] at h; cases h
    · rw [if_neg hp] at h
      intro hmem
      simp [cacheKeys] at hmem
      rcases hmem with h1 | h1
      · exact hp h1.symm
      · exact ih h (by simpa [cacheKeys] using h1)

theorem cacheGet_map_update (c : Cache) (k : String)
    (v : List LocationSuggestion) (h : (cacheGet c k).isSome) :
    cacheGet (c.map (fun p => if p.1 == k then (k, v) else p)) k = some v := by
  induction c with
  | nil => simp [cacheGet] at h
  | cons p rest ih =>
    by_cases hp : p.1 = k
    · have hb : (p.1 == k) = true := by simp [hp]
      rw [List.map_cons, hb]
      simp only [if_true]
      rw [cacheGet_cons]
      simp
    · have hb : (p.1 == k) = false := by simp [hp]
      rw [List.map_cons, hb]
      simp only [Bool.false_eq_true, if_false]
      rw [cacheGet_cons, if_neg hp]
      rw [cacheGet_cons, if_neg hp] at h
      exact ih h

theorem cacheGet_drop_none (c : Cache) (n : Nat) (k : String)
    (h : cacheGet c k = none) : cacheGet (c.drop n) k = none := by
  apply cacheGet_eq_none_of_not_mem
  intro hmem
  apply not_mem_of_cacheGet_eq_none c k h
  have hsub : cacheKeys (c.drop n) = (cacheKeys c).drop n := by
    simp [cacheKeys, List.map_drop]
  rw [hsub] at hmem
  exact List.drop_subset n (cacheKeys c) hmem

theorem cacheGet_cachePut_self (c : Cache) (k : String)
    (v : List LocationSuggestion) (h : c.length ≤ 50) :
    cacheGet (cachePut c k v) k = some v := by
  simp only [cachePut, mapSet]
  by_cases hsome : (cacheGet c k).isSome
  · rw [if_pos hsome]
    have hmap : (c.map (fun p => if p.1 == k then (k, v) else p)).length =
        c.length := List.length_map _ _
    rw [if_neg (by rw [hmap]; omega)]
    exact cacheGet_map_update c k v hsome
  · have hnone : cacheGet c k = none := by
      cases hg : cacheGet c k with
      | none => rfl
      | some _ => rw [hg] at hsome; simp at hsome
    rw [if_neg hsome]
    by_cases hfull : 50 < (c ++ [(k, v)]).length
    · rw [if_pos hfull]
      have hc : 1 ≤ c.length := by simp at hfull; omega
      rw [List.drop_append_of_le_length hc]
      rw [cacheGet_append _ _ _ (cacheGet_drop_none c 1 k hnone)]
      rw [cacheGet_cons]
      simp
    · rw [if_neg hfull]
      rw [cacheGet_append _ _ _ hnone]
      rw [cacheGet_cons]
      simp

/-- Claim C3 (amended): for a second query of raw length at least 2 whose
normalised form equals that of an earlier query whose cache entry is still
present, the fetcher publishes exactly the cached list, clears the error, and
issues no network request; and a put-then-get round trip on the cache returns
the stored list. -/
theorem claim_C3 (s : FetcherState) (q1 q2 : String)
    (rs : List LocationSuggestion) (h2 : 2 ≤ q2.length)
    (hnorm : normalizeQuery q2 = normalizeQuery q1)
    (hcached : cacheGet s.cache (normalizeQuery q1) = some rs)
    (c0 : Cache) (k : String) (v : List LocationSuggestion)
    (hc0 : c0.length ≤ 50) :
    applyDecision s q2 = ({ s with suggestions := rs, error := none }, none) ∧
    networkCalls (searchDecision s.cache q2) = 0 ∧
    cacheGet (cachePut c0 k v) k = some v := by
  have hd : searchDecision s.cache q2 = SearchAction.publishCached rs := by
    unfold searchDecision
    rw [if_neg (by omega), hnorm, hcached]
  refine ⟨?_, by rw [hd]; rfl, cacheGet_cachePut_self c0 k v hc0⟩
  unfold applyDecision
  rw [hd]

/-- Witness for claim C3: the cache holds the entry of an earlier "Paris "
query under its normalised key; the repeat query "PARIS" hits it. -/
theorem claim_C3_witness :
    2 ≤ ("PARIS" : String).length ∧
    normalizeQuery "PARIS" = normalizeQuery "Paris " ∧
    cacheGet [("paris", [parisSuggestion])] (normalizeQuery "Paris ") =
      some [parisSuggestion] ∧
    ([("k", [])] : Cache).length ≤ 50 ∧
    (applyDecision
        { cache := [("paris", [parisSuggestion])], suggestions := []
        , error := none, isLoading := false, inflight := none, nextId := 0 }
        "PARIS" =
      ({ cache := [("paris", [parisSuggestion])]
       , suggestions := [parisSuggestion], error := none, isLoading := false
       , inflight := none, nextId := 0 }, none) ∧
     networkCalls
        (searchDecision [("paris", [parisSuggestion])] "PARIS") = 0 ∧
     cacheGet (cachePut [("k", [])] "k2" [parisSuggestion]) "k2" =
       some [parisSuggestion]) :=
  ⟨by decide, by decide, by decide, by decide,
   claim_C3
     { cache := [("paris", [parisSuggestion])], suggestions := []
     , error := none, isLoading := false, inflight := none, nextId := 0 }
     "Paris " "PARIS" [parisSuggestion] (by decide) (by decide) (by decide)
     [("k", [])] "k2" [parisSuggestion] (by decide)⟩

/-- Counterexample to claim C3 as stated: the query "a" has the same
normalised form as the earlier query "A " whose entry is present in the
cache, yet the fetcher publishes the empty list — not the cached one —
because the raw-length guard `query.length < 2` fires before the cache is
consulted. -/
theorem claim_C3_counterexample :
    normalizeQuery "a" = normalizeQuery "A " ∧
    cacheGet [("a", [parisSuggestion])] (normalizeQuery "A ") =
      some [parisSuggestion] ∧
    searchDecision [("a", [parisSuggestion])] "a" =
      SearchAction.publishEmpty ∧
    SearchAction.publishEmpty ≠ SearchAction.publishCached [parisSuggestion] := by
  decide

/-- Claim C4 (amended): a query change always clears and re-arms the 150 ms
debounce timer, even when the new raw query has length < 2 — so a short
query cancels the pending timer of a previous query — and the empty publish
is not immediate but deferred to that timer's fire: when the re-armed timer
fires after a quiet period, a raw query of length < 2 makes the fetcher
publish the empty suggestion list, clear any error state and issue no
network request (the guard is on the raw query, not its normalised form). -/
theorem claim_C4 (s : FetcherState) (q : String) (h : q.length < 2)
    (e : Nat × String) (t : Nat) (rest : List (Nat × String))
    (hwin : t < e.1 + debounceMs) :
    firedEvents (e :: (t, q) :: rest) = firedEvents ((t, q) :: rest) ∧
    firedEvents [(t, q)] = [(t, q)] ∧
    debounceCallback s.cache q = SearchAction.publishEmpty ∧
    applyDecision s q = ({ s with suggestions := [], error := none }, none) ∧
    networkCalls (searchDecision s.cache q) = 0 := by
  have hd : searchDecision s.cache q = SearchAction.publishEmpty := by
    unfold searchDecision
    rw [if_pos h]
  have hcancel : firedEvents (e :: (t, q) :: rest) =
      firedEvents ((t, q) :: rest) := by
    simp only [firedEvents]
    rw [if_neg (by omega)]
    rfl
  have hcb : debounceCallback s.cache q = SearchAction.publishEmpty := by
    unfold debounceCallback
    by_cases hq : q = ""
    · rw [if_pos hq]
    · rw [if_neg hq]
      exact hd
  refine ⟨hcancel, rfl, hcb, ?_, by rw [hd]; rfl⟩
  unfold applyDecision
  rw [hd]

/-- Witness for claim C4: the one-character query "a" arriving 100 ms after
"ab" cancels the pending "ab" timer; its own timer fires and publishes the
empty list with no network request. -/
theorem claim_C4_witness :
    ("a" : String).length < 2 ∧ 100 < 0 + debounceMs ∧
    (firedEvents [(0, "ab"), (100, "a")] = firedEvents [(100, "a")] ∧
     firedEvents [(100, "a")] = [(100, "a")] ∧
     debounceCallback initialFetcherState.cache "a" =
       SearchAction.publishEmpty ∧
     applyDecision initialFetcherState "a" =
       ({ initialFetcherState with suggestions := [], error := none }, none) ∧
     networkCalls (searchDecision initialFetcherState.cache "a") = 0) :=
  ⟨by decide, by decide,
   claim_C4 initialFetcherState "a" (by decide) (0, "ab") 100 [] (by decide)⟩

/-- Counterexample to claim C4 as stated: (i) the raw query "A " has
normalised form "a" of length 1 < 2, yet the fetcher issues a network
request, because the code guards on `query.length`, the raw length 2;
(ii) a short query is not timer-neutral: "a" arriving 100 ms after "ab"
clears the pending timer, so the "ab" fetch never happens — under the
claim's "do not touch the timer" the trace would still fetch "ab" — and the
empty publish for "a" waits for its own timer fire at 250 ms rather than
happening immediately. -/
theorem claim_C4_counterexample :
    (normalizeQuery "A ").length < 2 ∧
    searchDecision [] "A " = SearchAction.fetch "A " ∧
    networkCalls (searchDecision [] "A ") = 1 ∧
    firedEvents [(0, "ab"), (100, "a")] = [(100, "a")] ∧
    fetchedQueries [] [(0, "ab"), (100, "a")] = [] := by
  decide

/-! ## Debounce and cancellation lemmas -/

theorem firedEvents_rapid (evs : List (Nat × String)) (h : rapid evs = true) :
    ∀ (hne : evs ≠ []), firedEvents evs = [evs.getLast hne] := by
  induction evs with
  | nil => intro hne; exact absurd rfl hne
  | cons e rest ih =>
    intro hne
    cases rest with
    | nil => rfl
    | cons e2 rest2 =>
      simp only [rapid, Bool.and_eq_true, decide_eq_true_eq] at h
      obtain ⟨h1, h2⟩ := h
      have ihe := ih h2 (by simp)
      simp only [firedEvents]
      rw [if_neg (by omega), ihe]
      simp [List.getLast_cons]

/-- Claim C5: each `debouncedSearch` call clears the previous pending timer,
so on a trace whose inputs each arrive within 150 ms of their predecessor
only the final timer fires; the completion of a request whose abort
controller has been superseded publishes nothing (suggestions, cache and
error unchanged); issuing a new fetch makes every previously issued
controller non-current; and the concrete trace "par" at 0 ms, "pari" at
100 ms produces exactly one network request, for "pari". -/
theorem claim_C5 (evs : List (Nat × String)) (hne : evs ≠ [])
    (hrapid : rapid evs = true) (s : FetcherState) (id j : Nat) (q : String)
    (r : FetchResult) (habort : s.inflight ≠ some id)
    (_hj : s.inflight = some j) (hlt : j < s.nextId) :
    firedEvents evs = [evs.getLast hne] ∧
    fetchedQueries [] [(0, "par"), (100, "pari")] = ["pari"] ∧
    (completeFetch s id q r).suggestions = s.suggestions ∧
    (completeFetch s id q r).cache = s.cache ∧
    (completeFetch s id q r).error = s.error ∧
    (issueFetch s).1.inflight ≠ some j := by
  have hc : completeFetch s id q r = { s with isLoading := false } := by
    unfold completeFetch
    rw [if_neg habort]
  refine ⟨firedEvents_rapid evs hrapid hne, by decide, ?_, ?_, ?_, ?_⟩
  · rw [hc]
  · rw [hc]
  · rw [hc]
  · simp only [issueFetch]
    intro hcontra
    simp at hcontra
    omega

/-- Witness for claim C5 on the "par"/"pari" trace with a superseded
controller (id 0 outstanding, completion of the unrelated id 7). -/
theorem claim_C5_witness :
    ([(0, "par"), (100, "pari")] : List (Nat × String)) ≠ [] ∧
    rapid [(0, "par"), (100, "pari")] = true ∧
    ({ cache := [], suggestions := [], error := none, isLoading := true
     , inflight := some 0, nextId := 1 } : FetcherState).inflight ≠ some 7 ∧
    ({ cache := [], suggestions := [], error := none, isLoading := true
     , inflight := some 0, nextId := 1 } : FetcherState).inflight = some 0 ∧
    0 < ({ cache := [], suggestions := [], error := none, isLoading := true
         , inflight := some 0, nextId := 1 } : FetcherState).nextId ∧
    (firedEvents [(0, "par"), (100, "pari")] = [(100, "pari")] ∧
     fetchedQueries [] [(0, "par"), (100, "pari")] = ["pari"] ∧
     (completeFetch
        { cache := [], suggestions := [], error := none, isLoading := true
        , inflight := some 0, nextId := 1 } 7 "par"
        (FetchResult.success [parisSuggestion])).suggestions = [] ∧
     (completeFetch
        { cache := [], suggestions := [], error := none, isLoading := true
        , inflight := some 0, nextId := 1 } 7 "par"
        (FetchResult.success [parisSuggestion])).cache = [] ∧
     (completeFetch
        { cache := [], suggestions := [], error := none, isLoading := true
        , inflight := some 0, nextId := 1 } 7 "par"
        (FetchResult.success [parisSuggestion])).error = none ∧
     (issueFetch
        { cache := [], suggestions := [], error := none, isLoading := true
        , inflight := some 0, nextId := 1 }).1.inflight ≠ some 0) :=
  ⟨by decide, by decide, by decide, by decide, by decide,
   claim_C5 [(0, "par"), (100, "pari")] (by decide) (by decide)
     { cache := [], suggestions := [], error := none, isLoading := true
     , inflight := some 0, nextId := 1 } 7 0 "par"
     (FetchResult.success [parisSuggestion]) (by decide) (by decide)
     (by decide)⟩

/-! ## Geocoding, orchestration and waypoint-creation claims -/

/-- Claim C6: `geocodeAddress` never throws — a transport failure or a
non-array payload yields `null`, an empty result set yields `null`, and a
non-empty result set yields the first match's coordinates. -/
theorem claim_C6 (r : GeoResult) (rs : List GeoResult) :
    geocodeAddress GeoOutcome.throws = none ∧
    geocodeAddress GeoOutcome.nonArray = none ∧
    geocodeAddress (GeoOutcome.results []) = none ∧
    geocodeAddress (GeoOutcome.results (r :: rs)) = some (r.lat, r.lon) :=
  ⟨rfl, rfl, rfl, rfl⟩

/-- Claim C7: on every recomputation the orchestrator assembles
start-if-resolved, the waypoints in list order, then end-if-resolved; with at
least 2 entries it publishes the computed distance, with fewer it publishes
nothing and the last published value stands. -/
theorem claim_C7 (s : TripState) (o : RouteOutcome) :
    assembleCoordinates s =
      s.startCoords.toList ++ s.destinations.map (fun d => (d.lat, d.lng)) ++
        s.endCoords.toList ∧
    (2 ≤ (assembleCoordinates s).length →
      calculateTotalDistance s o =
        ({ s with
            publishedDistance :=
              calculateRouteDistance (assembleCoordinates s) o }, true)) ∧
    ((assembleCoordinates s).length < 2 →
      calculateTotalDistance s o = (s, false) ∧
      (calculateTotalDistance s o).1.publishedDistance =
        s.publishedDistance) := by
  refine ⟨rfl, ?_, ?_⟩
  · intro h
    simp only [calculateTotalDistance]
    rw [if_pos h]
  · intro h
    have hn : ¬ 2 ≤ (assembleCoordinates s).length := by omega
    simp only [calculateTotalDistance]
    rw [if_neg hn]
    exact ⟨rfl, rfl⟩

/-- Witness for claim C7: a two-entry state publishes, an empty state does
not and retains its last published value 5. -/
theorem claim_C7_witness :
    2 ≤ (assembleCoordinates tripTwoPointState).length ∧
    (assembleCoordinates tripEmptyState).length < 2 ∧
    calculateTotalDistance tripTwoPointState RouteOutcome.throws =
      ({ tripTwoPointState with
          publishedDistance :=
            calculateRouteDistance (assembleCoordinates tripTwoPointState)
              RouteOutcome.throws }, true) ∧
    calculateTotalDistance tripEmptyState RouteOutcome.throws =
      (tripEmptyState, false) ∧
    (calculateTotalDistance tripEmptyState RouteOutcome.throws).1.publishedDistance =
      tripEmptyState.publishedDistance :=
  ⟨by decide, by decide,
   (claim_C7 tripTwoPointState RouteOutcome.throws).2.1 (by decide),
   ((claim_C7 tripEmptyState RouteOutcome.throws).2.2 (by decide)).1,
   ((claim_C7 tripEmptyState RouteOutcome.throws).2.2 (by decide)).2⟩

/-- Claim C9: an address text cleared to the empty string triggers no
re-resolution — the previously resolved coordinate is kept and keeps
contributing to the assembled sequence — while a non-empty address text
replaces the corresponding coordinate with the geocoding result. -/
theorem claim_C9 (s : TripState) (geo : GeoOutcome) (a : String)
    (ha : a ≠ "") :
    onStartingAddressChange s "" geo = s ∧
    onEndingAddressChange s "" geo = s ∧
    assembleCoordinates (onStartingAddressChange s "" geo) =
      assembleCoordinates s ∧
    assembleCoordinates (onEndingAddressChange s "" geo) =
      assembleCoordinates s ∧
    (onStartingAddressChange s a geo).startCoords = geocodeAddress geo ∧
    (onEndingAddressChange s a geo).endCoords = geocodeAddress geo := by
  have h1 : onStartingAddressChange s "" geo = s := by
    unfold onStartingAddressChange
    rw [if_pos rfl]
  have h2 : onEndingAddressChange s "" geo = s := by
    unfold onEndingAddressChange
    rw [if_pos rfl]
  refine ⟨h1, h2, by rw [h1], by rw [h2], ?_, ?_⟩
  · unfold onStartingAddressChange
    rw [if_neg ha]
  · unfold onEndingAddressChange
    rw [if_neg ha]

/-- Witness for claim C9 at the non-empty address "Tunis". -/
theorem claim_C9_witness :
    ("Tunis" : String) ≠ "" ∧
    (onStartingAddressChange tripTwoPointState "" GeoOutcome.throws =
       tripTwoPointState ∧
     onEndingAddressChange tripTwoPointState "" GeoOutcome.throws =
       tripTwoPointState ∧
     assembleCoordinates
         (onStartingAddressChange tripTwoPointState "" GeoOutcome.throws) =
       assembleCoordinates tripTwoPointState ∧
     assembleCoordinates
         (onEndingAddressChange tripTwoPointState "" GeoOutcome.throws) =
       assembleCoordinates tripTwoPointState ∧
     (onStartingAddressChange tripTwoPointState "Tunis"
         GeoOutcome.throws).startCoords = geocodeAddress GeoOutcome.throws ∧
     (onEndingAddressChange tripTwoPointState "Tunis"
         GeoOutcome.throws).endCoords = geocodeAddress GeoOutcome.throws) :=
  ⟨by decide,
   claim_C9 tripTwoPointState GeoOutcome.throws "Tunis" (by decide)⟩

/-- Claim C10: pressing the add button with typed-but-unselected text appends
a waypoint at exactly latitude 0, longitude 0 named by the raw text's first
comma-segment, with no geocoding, and that (0,0) waypoint enters the
assembled sequence used for the distance computation. -/
theorem claim_C10 (destinations : List Destination) (id sv : String)
    (sc ec : Option Coordinate) (d : ℝ) (h : jsTrim sv ≠ "") :
    handleAddCurrent destinations id sv =
      destinations ++
        [{ id := id, lat := 0, lng := 0, name := jsSplitFirst sv }] ∧
    ((0 : ℝ), (0 : ℝ)) ∈ assembleCoordinates
      { startCoords := sc, endCoords := ec
      , destinations := handleAddCurrent destinations id sv
      , publishedDistance := d } := by
  have h1 : handleAddCurrent destinations id sv =
      destinations ++
        [{ id := id, lat := 0, lng := 0, name := jsSplitFirst sv }] := by
    unfold handleAddCurrent
    rw [if_neg h]
    rfl
  refine ⟨h1, ?_⟩
  unfold assembleCoordinates
  simp only [h1, List.map_append, List.map_cons, List.map_nil]
  simp [List.mem_append]

/-- Witness for claim C10 at the typed text "Sidi Bou Said, Tunisia". -/
theorem claim_C10_witness :
    jsTrim "Sidi Bou Said, Tunisia" ≠ "" ∧
    (handleAddCurrent [] "1" "Sidi Bou Said, Tunisia" =
       [] ++ [{ id := "1", lat := 0, lng := 0
              , name := jsSplitFirst "Sidi Bou Said, Tunisia" }] ∧
     ((0 : ℝ), (0 : ℝ)) ∈ assembleCoordinates
       { startCoords := none, endCoords := none
       , destinations := handleAddCurrent [] "1" "Sidi Bou Said, Tunisia"
       , publishedDistance := 0 }) :=
  ⟨by decide,
   claim_C10 [] "1" "Sidi Bou Said, Tunisia" none none 0 (by decide)⟩

/-! ## Route distance claims -/

/-- Claim C1 (amended): for every coordinate sequence with at least 2
entries, when the routing interaction throws (network failure, or a payload
that cannot be parsed), `calculateRouteDistance` returns the haversine sum
over consecutive pairs — the STRAIGHT_LINE fallback — and never fails.  When
the provider instead returns a parseable payload without routes (e.g. the
JSON error body of a non-2xx response), the function returns 0, not the
fallback. -/
theorem claim_C1 (coordinates : List Coordinate)
    (h : 2 ≤ coordinates.length) :
    calculateRouteDistance coordinates RouteOutcome.throws =
      calculateStraightLineDistance coordinates := by
  unfold calculateRouteDistance
  rw [if_neg (by omega)]

/-- Witness for claim C1 at the two-point sequence [(0,0), (0,0)]. -/
theorem claim_C1_witness :
    2 ≤ ([((0:ℝ), (0:ℝ)), ((0:ℝ), (0:ℝ))] : List Coordinate).length ∧
    calculateRouteDistance [((0:ℝ), (0:ℝ)), ((0:ℝ), (0:ℝ))]
        RouteOutcome.throws =
      calculateStraightLineDistance [((0:ℝ), (0:ℝ)), ((0:ℝ), (0:ℝ))] :=
  ⟨by decide, claim_C1 [((0:ℝ), (0:ℝ)), ((0:ℝ), (0:ℝ))] (by decide)⟩

/-- Counterexample to claim C1 as stated: on the two-point sequence
[(0,0), (0,180)] a provider failure that yields a parseable payload without
routes (a non-2xx JSON error body) makes `calculateRouteDistance` return 0,
while the claimed haversine fallback equals 6371·π ≠ 0. -/
theorem claim_C1_counterexample :
    calculateRouteDistance [((0:ℝ), (0:ℝ)), ((0:ℝ), (180:ℝ))]
      (RouteOutcome.payload (some [])) = 0 ∧
    calculateStraightLineDistance [((0:ℝ), (0:ℝ)), ((0:ℝ), (180:ℝ))] =
      6371 * π ∧
    (6371 * π : ℝ) ≠ 0 := by
  refine ⟨?_, ?_, ?_⟩
  · norm_num [calculateRouteDistance]
  · have h180 : (180:ℝ) * π / 180 / 2 = π / 2 := by ring
    norm_num [calculateStraightLineDistance, haversinePair, atan2, h180,
      Real.sin_pi_div_two, Real.sqrt_one, Real.sqrt_zero]
    ring
  · positivity

/-- Claim C8: the per-pair haversine distance with Earth radius 6371 km is
symmetric, and for a two-point list `calculateStraightLineDistance` equals
that of the reversed list. -/
theorem claim_C8 (a b : Coordinate) :
    haversinePair a b = haversinePair b a ∧
    calculateStraightLineDistance [a, b] =
      calculateStraightLineDistance [b, a] := by
  have hp : haversinePair a b = haversinePair b a := by
    have e1 : (a.1 - b.1) * π / 180 / 2 = -((b.1 - a.1) * π / 180 / 2) := by
      ring
    have e2 : (a.2 - b.2) * π / 180 / 2 = -((b.2 - a.2) * π / 180 / 2) := by
      ring
    simp only [haversinePair]
    rw [e1, e2, Real.sin_neg, Real.sin_neg]
    ring_nf
  refine ⟨hp, ?_⟩
  simp only [calculateStraightLineDistance]
  rw [hp]

end TripPlanner
